import Mathlib

/-!
Verification of the CVD (color vision deficiency) detection/correction core
of this repository against its natural-language specification.

The embedding below is a shallow translation of `src/backend/dalton_lens_utils.py`,
`src/backend/gan_filter_generator.py` and `src/backend/realtime_filter_methods.py`.
Machine floats are modelled as exact rationals (`ℚ`), per-pixel numpy operations
as per-pixel rational functions, Python `round(x, 2)` as exact round-half-to-even
at two decimal places, and Python exception flow as an explicit `PyResult` type.
-/

/-- The closed set of deficiency types handled by the code
(`apply_cvd_filter` dispatches on exactly these three strings). -/
inductive DeficiencyType where
  | protanopia
  | deuteranopia
  | tritanopia
deriving DecidableEq

/-- The string key used for a deficiency type throughout the Python code. -/
def deficiencyName : DeficiencyType → String
  | .protanopia => "protanopia"
  | .deuteranopia => "deuteranopia"
  | .tritanopia => "tritanopia"

/-- An RGB pixel (or pixel-sized vector) with exact rational channels. -/
structure Vec3 where
  r : ℚ
  g : ℚ
  b : ℚ
deriving DecidableEq

/-- Channel-wise addition of pixels. -/
def vadd (u v : Vec3) : Vec3 := ⟨u.r + v.r, u.g + v.g, u.b + v.b⟩

/-- Scalar multiple of a pixel. -/
def vscale (c : ℚ) (v : Vec3) : Vec3 := ⟨c * v.r, c * v.g, c * v.b⟩

/-- A 3x3 matrix given by its rows. -/
structure Mat3 where
  row0 : Vec3
  row1 : Vec3
  row2 : Vec3
deriving DecidableEq

/-- Dot product of two RGB triples. -/
def vdot (u v : Vec3) : ℚ := u.r * v.r + u.g * v.g + u.b * v.b

/-- Matrix-vector product.  `np.dot(reshaped, transform_matrix.T)` applies the
matrix to each pixel row, i.e. each output pixel is `M · p`. -/
def matVec (m : Mat3) (v : Vec3) : Vec3 := ⟨vdot m.row0 v, vdot m.row1 v, vdot m.row2 v⟩

/-- `self.protanopia_matrix` from `ColorVisionProcessor.__init__`. -/
def protanopia_matrix : Mat3 :=
  ⟨⟨152286/1000000, 1052583/1000000, -204868/1000000⟩,
   ⟨114503/1000000, 786281/1000000, 99216/1000000⟩,
   ⟨-3882/1000000, -48116/1000000, 1051998/1000000⟩⟩

/-- `self.deuteranopia_matrix` from `ColorVisionProcessor.__init__`. -/
def deuteranopia_matrix : Mat3 :=
  ⟨⟨367322/1000000, 860646/1000000, -227968/1000000⟩,
   ⟨280085/1000000, 672501/1000000, 47413/1000000⟩,
   ⟨-11820/1000000, 42940/1000000, 968881/1000000⟩⟩

/-- `self.tritanopia_matrix` from `ColorVisionProcessor.__init__`. -/
def tritanopia_matrix : Mat3 :=
  ⟨⟨1255528/1000000, -76749/1000000, -178779/1000000⟩,
   ⟨-78411/1000000, 930809/1000000, 147602/1000000⟩,
   ⟨4733/1000000, 691367/1000000, 303900/1000000⟩⟩

/-- The matrix `apply_cvd_filter` selects for each deficiency type. -/
def cvd_matrix : DeficiencyType → Mat3
  | .protanopia => protanopia_matrix
  | .deuteranopia => deuteranopia_matrix
  | .tritanopia => tritanopia_matrix

/-- Python `min(a, b)` on two numbers (returns `a` on ties, as Python does). -/
def pymin (a b : ℚ) : ℚ := if a ≤ b then a else b

/-- Python `max(a, b)` on two numbers (returns `a` on ties, as Python does). -/
def pymax (a b : ℚ) : ℚ := if a < b then b else a

/-- Per-pixel core of `ColorVisionProcessor.apply_cvd_filter` on a normalized
pixel: the code first rescales `severity = min(1.0, severity * 2.0)` and then
interpolates `(1 - severity) * reshaped + severity * transformed` when the
rescaled severity is `< 1.0`, otherwise uses the transform output directly. -/
def apply_cvd_filter_pixel (t : DeficiencyType) (severity : ℚ) (p : Vec3) : Vec3 :=
  let sev := pymin 1 (severity * 2)
  let transformed := matVec (cvd_matrix t) p
  if sev < 1 then vadd (vscale (1 - sev) p) (vscale sev transformed) else transformed

/-- `apply_cvd_filter` applied to a whole (flattened) image: numpy applies the
matrix product and interpolation independently to every pixel row. -/
def apply_cvd_filter (t : DeficiencyType) (severity : ℚ) (img : List Vec3) : List Vec3 :=
  img.map (apply_cvd_filter_pixel t severity)

/-- Modelled from the spec wording for comparison (refinement check): per pixel,
`result = (1-severity)*original + severity*transformed` for severity < 1.0,
with the caller-supplied severity itself as the interpolation weight. -/
def apply_cvd_filter_pixel_specWeight (t : DeficiencyType) (severity : ℚ) (p : Vec3) : Vec3 :=
  let transformed := matVec (cvd_matrix t) p
  if severity < 1 then vadd (vscale (1 - severity) p) (vscale severity transformed) else transformed

/-- The spec-worded filter on a whole image. -/
def apply_cvd_filter_specWeight (t : DeficiencyType) (severity : ℚ) (img : List Vec3) : List Vec3 :=
  img.map (apply_cvd_filter_pixel_specWeight t severity)

/-- A test question as consumed by `CVDAnalyzer.analyze_test_results` and as
produced by `ColorVisionTestGenerator.generate_test_questions` (only the fields
the scorer reads; image payloads and ids are irrelevant to scoring). -/
structure Question where
  user_response : Option Bool
  correct_answer : Bool
  filter_type : String
  difficulty_level : String
  question_type : String
deriving DecidableEq

/-- `intensity_weights.get(difficulty_level, 0.1)`: identical → 0.1,
cvd_confusion → 1.0, anything else → the 0.1 default. -/
def intensity_weight (difficulty_level : String) : ℚ :=
  if difficulty_level = "identical" then 1/10
  else if difficulty_level = "cvd_confusion" then 1
  else 1/10

/-- Per-deficiency-type accumulator of `analyze_test_results`
(`scores[deficiency_type]` in the Python code). -/
structure ScoreData where
  total_weight : ℚ
  error_weight : ℚ
  confusion_errors : ℕ
  specific_questions : ℕ
deriving DecidableEq

/-- One iteration of the scoring loop of `analyze_test_results`, restricted to
the accumulator of the type named `tname`: answered questions whose
`filter_type` is `tname` add their intensity weight to the total, count
`question_type == f"{filter_type}_specific"` occurrences, and on a wrong answer
add the weight to the error weight and count cvd-confusion specific errors. -/
def stepScore (tname : String) (sd : ScoreData) (q : Question) : ScoreData :=
  match q.user_response with
  | none => sd
  | some resp =>
    if q.filter_type = tname then
      let w := intensity_weight q.difficulty_level
      let specInc : ℕ := if q.question_type = tname ++ "_specific" then 1 else 0
      if resp ≠ q.correct_answer then
        { total_weight := sd.total_weight + w
          error_weight := sd.error_weight + w
          confusion_errors := sd.confusion_errors +
            (if q.difficulty_level = "cvd_confusion" ∧ q.question_type = tname ++ "_specific"
             then 1 else 0)
          specific_questions := sd.specific_questions + specInc }
      else
        { total_weight := sd.total_weight + w
          error_weight := sd.error_weight
          confusion_errors := sd.confusion_errors
          specific_questions := sd.specific_questions + specInc }
    else sd

/-- The accumulator for deficiency type `tname` after the scoring loop of
`analyze_test_results` has run over all questions. -/
def scoreFor (tname : String) (questions : List Question) : ScoreData :=
  questions.foldl (stepScore tname) ⟨0, 0, 0, 0⟩

/-- Round-half-to-even to an integer, the rounding mode of Python `round`. -/
def roundHalfEven (q : ℚ) : ℤ :=
  if q - ⌊q⌋ < 1/2 then ⌊q⌋
  else if 1/2 < q - ⌊q⌋ then ⌊q⌋ + 1
  else if ⌊q⌋ % 2 = 0 then ⌊q⌋ else ⌊q⌋ + 1

/-- Python `round(x, 2)` modelled exactly on rationals. -/
def round2 (q : ℚ) : ℚ := (roundHalfEven (q * 100) : ℚ) / 100

/-- The severity of one type before the `min(0.2, ...)` cap: base 0.15 when the
type has an answered specific question and its confusion question was missed,
plus `error_weight / total_weight * 0.05` when any weight accumulated. -/
def preClampSeverity (sd : ScoreData) : ℚ :=
  (if 0 < sd.specific_questions then (if 0 < sd.confusion_errors then 3/20 else 0) else 0)
  + (if 0 < sd.total_weight then sd.error_weight / sd.total_weight * (1/20) else 0)

/-- The per-type severity after the `min(0.2, severity)` cap. -/
def rawSeverity (sd : ScoreData) : ℚ := pymin (1/5) (preClampSeverity sd)

/-- `severity_scores[deficiency_type] = round(severity, 2)`. -/
def severityFor (tname : String) (questions : List Question) : ℚ :=
  round2 (rawSeverity (scoreFor tname questions))

/-- The severity classification thresholds of `analyze_test_results`. -/
def overallSeverityLabel (max_severity : ℚ) : String :=
  if max_severity < 3/20 then "none"
  else if max_severity < 7/20 then "mild"
  else if max_severity < 13/20 then "moderate"
  else "severe"

/-- The result dictionary of `analyze_test_results` (numeric fields only;
`no_blindness` is the Python int `1 if max_severity < 0.1 else 0`). -/
structure AnalysisResult where
  protanopia : ℚ
  deuteranopia : ℚ
  tritanopia : ℚ
  no_blindness : ℕ
  overall_severity : String
deriving DecidableEq

/-- `CVDAnalyzer.analyze_test_results`: per-type weighted severities (capped at
0.2 and rounded to 2 decimals), the overall label from the maximum severity and
the `no_blindness` flag. -/
def analyze_test_results (questions : List Question) : AnalysisResult :=
  let p := severityFor "protanopia" questions
  let d := severityFor "deuteranopia" questions
  let t := severityFor "tritanopia" questions
  let max_severity := pymax (pymax p d) t
  { protanopia := p
    deuteranopia := d
    tritanopia := t
    no_blindness := if max_severity < 1/10 then 1 else 0
    overall_severity := overallSeverityLabel max_severity }

/-- Whether an answered question was answered incorrectly. -/
def answeredWrong (q : Question) : Bool :=
  match q.user_response with
  | some resp => resp != q.correct_answer
  | none => false

/-- Whether some `"{tname}_specific"` question in the battery was answered
incorrectly. -/
def specificAnsweredWrong (tname : String) (questions : List Question) : Bool :=
  questions.any (fun q => q.question_type == tname ++ "_specific" && answeredWrong q)

/-- A battery is well formed for type `tname` when its `"{tname}_specific"`
questions carry that type as `filter_type` and the `cvd_confusion` difficulty,
as `generate_test_questions` always arranges. -/
def SpecificWellFormed (tname : String) (q : Question) : Prop :=
  q.question_type = tname ++ "_specific" →
    (q.filter_type = tname ∧ q.difficulty_level = "cvd_confusion")

instance (tname : String) (q : Question) : Decidable (SpecificWellFormed tname q) := by
  unfold SpecificWellFormed
  infer_instance

/-- The invariant maintained by the scoring loop. -/
def ScoreInv (sd : ScoreData) : Prop :=
  0 ≤ sd.error_weight ∧ sd.error_weight ≤ sd.total_weight ∧
  (0 < sd.specific_questions → 0 < sd.total_weight)

/-- `deficiency_types` in `generate_test_questions`. -/
def deficiency_types : List String := ["protanopia", "deuteranopia", "tritanopia"]

/-- The fixed `test_structure` list of `generate_test_questions`:
7 identical questions and one specific question per deficiency type. -/
def test_structure : List String :=
  ["identical", "identical", "identical", "identical", "identical", "identical", "identical",
   "protanopia_specific", "deuteranopia_specific", "tritanopia_specific"]

/-- `question_type.replace("_specific", "")` as it acts on the question-type
tags that occur in `test_structure` (removing the suffix). -/
def stripSpecificSuffix (question_type : String) : String :=
  if question_type = "protanopia_specific" then "protanopia"
  else if question_type = "deuteranopia_specific" then "deuteranopia"
  else if question_type = "tritanopia_specific" then "tritanopia"
  else question_type

/-- The scoring-relevant fields of question `i` built by the loop of
`generate_test_questions`: identical questions get `correct_answer=True` and a
randomly chosen deficiency type for context (abstracted by `pick`); specific
questions get the `cvd_confusion` difficulty and `correct_answer=False`. -/
def mkTestQuestion (pick : ℕ → String) (i : ℕ) : Question :=
  let question_type := test_structure.getD (i % test_structure.length) ""
  if question_type = "identical" then
    { user_response := none
      correct_answer := true
      filter_type := pick i
      difficulty_level := "identical"
      question_type := "identical" }
  else
    { user_response := none
      correct_answer := false
      filter_type := stripSpecificSuffix question_type
      difficulty_level := "cvd_confusion"
      question_type := question_type }

/-- `ColorVisionTestGenerator.generate_test_questions(count)` (scoring-relevant
fields; image selection and payload generation are irrelevant to composition). -/
def generate_test_questions (pick : ℕ → String) (count : ℕ) : List Question :=
  (List.range count).map (mkTestQuestion pick)

/-- A severity-score dictionary as read by the parameter generators
(`severity_scores.get(type, 0)` for the three type keys). -/
structure SeverityScores where
  protanopia : ℚ
  deuteranopia : ℚ
  tritanopia : ℚ
deriving DecidableEq

/-- The condition tensor `[protan, deutan, tritan, has_cvd]` of the model. -/
structure ConditionVector where
  protan : ℚ
  deutan : ℚ
  tritan : ℚ
  has_cvd : ℚ
deriving DecidableEq

/-- `GANFilterGenerator.create_condition_vector`:
`has_cvd = 1.0 if (p > 0 or d > 0 or t > 0) else 0.0`. -/
def create_condition_vector (p d t : ℚ) : ConditionVector :=
  ⟨p, d, t, if 0 < p ∨ 0 < d ∨ 0 < t then 1 else 0⟩

/-- The `has_cvd` entry built inside
`GANFilterGenerator.generate_filter_parameters`:
`1.0 if max(p, d, t) > 0.1 else 0.0`. -/
def generate_filter_parameters_has_cvd (p d t : ℚ) : ℚ :=
  if 1/10 < pymax (pymax p d) t then 1 else 0

/-- The numeric correction-parameter fields produced by the closed-form
parameter generators (the Python dicts also carry bookkeeping strings). -/
structure FilterParams where
  protanopia_correction : ℚ
  deuteranopia_correction : ℚ
  tritanopia_correction : ℚ
  brightness_adjustment : ℚ
  contrast_adjustment : ℚ
  saturation_adjustment : ℚ
deriving DecidableEq

/-- `ColorVisionProcessor.generate_traditional_filter_params`: per-type gain
0.8 and global adjustments `1 + max_severity * {0.1, 0.15, 0.2}`. -/
def generate_traditional_filter_params (s : SeverityScores) : FilterParams :=
  let max_severity := pymax (pymax s.protanopia s.deuteranopia) s.tritanopia
  { protanopia_correction := s.protanopia * (8/10)
    deuteranopia_correction := s.deuteranopia * (8/10)
    tritanopia_correction := s.tritanopia * (8/10)
    brightness_adjustment := 1 + max_severity * (1/10)
    contrast_adjustment := 1 + max_severity * (15/100)
    saturation_adjustment := 1 + max_severity * (2/10) }

/-- `CVDAnalyzer.generate_correction_filter`: per-type gain 0.4 and global
adjustments pinned to exactly 1.0. -/
def generate_correction_filter (s : SeverityScores) : FilterParams :=
  { protanopia_correction := s.protanopia * (4/10)
    deuteranopia_correction := s.deuteranopia * (4/10)
    tritanopia_correction := s.tritanopia * (4/10)
    brightness_adjustment := 1
    contrast_adjustment := 1
    saturation_adjustment := 1 }

/-- Outcome of running a Python expression: a value or a raised exception. -/
inductive PyResult (α : Type) where
  | ok : α → PyResult α
  | exn : String → PyResult α
deriving DecidableEq

/-- Every attribute name reachable on a `ColorVisionProcessor` instance: the
four attributes assigned in `__init__` plus the methods of the class body
(`generate_realtime_filter_params` and `generate_traditional_filter_params`
are re-assigned by `patch_color_vision_processor`, keeping the same names).
Note that `generate_correction_filter` is absent. -/
def processor_attribute_names : List String :=
  ["protanopia_matrix", "deuteranopia_matrix", "tritanopia_matrix", "gan_generator",
   "apply_cvd_filter", "generate_test_image_pair", "generate_identical_test_pair",
   "generate_cvd_confusion_pair", "_image_to_base64", "_base64_to_image",
   "apply_gan_correction_filter", "get_gan_filter_recommendations",
   "apply_hybrid_correction_filter", "apply_traditional_correction_filter",
   "_apply_global_adjustments", "generate_realtime_filter_params",
   "generate_traditional_filter_params"]

/-- Every attribute name reachable on a `CVDAnalyzer` instance: the class
defines no `__init__` and nothing in the repository assigns instance
attributes, so only the method names exist.  Note that `gan_generator` is
absent. -/
def analyzer_attribute_names : List String :=
  ["analyze_test_results", "generate_correction_filter", "apply_gan_correction_filter",
   "get_gan_filter_recommendations", "apply_hybrid_correction_filter",
   "apply_traditional_correction_filter", "_apply_global_adjustments"]

/-- `ColorVisionProcessor.apply_traditional_correction_filter`: the body first
decodes the image (modelled by `decodeBody`, which may raise), then evaluates
`self.generate_correction_filter(...)`, an attribute `ColorVisionProcessor`
does not have, raising `AttributeError`; the blanket `except` returns the
original `image_data`.  `pipeline` stands for the unreachable rest of the body
(the correction computation that would run if the attribute existed). -/
def processor_apply_traditional_correction_filter
    (pipeline : String → String) (decodeBody : String → PyResult Unit)
    (image_data : String) : String :=
  match decodeBody image_data with
  | .exn _ => image_data
  | .ok _ =>
    if processor_attribute_names.contains "generate_correction_filter" then
      pipeline image_data
    else image_data

/-- `ColorVisionProcessor.apply_gan_correction_filter`: returns `None` when
`self.gan_generator` is `None`; otherwise runs the whole try-block (decoding,
model inference, re-encoding — abstracted as `g`) and returns `None` on any
exception. -/
def processor_apply_gan_correction_filter
    (gan : Option (String → PyResult String)) (image_data : String) : Option String :=
  match gan with
  | none => none
  | some g =>
    match g image_data with
    | .ok s => some s
    | .exn _ => none

/-- `ColorVisionProcessor.apply_hybrid_correction_filter`: try the model
strategy when requested and available, use its result when truthy (non-empty),
otherwise fall back to the traditional filter. -/
def processor_apply_hybrid_correction_filter
    (gan : Option (String → PyResult String)) (pipeline : String → String)
    (decodeBody : String → PyResult Unit) (use_gan : Bool) (image_data : String) : String :=
  if use_gan && gan.isSome then
    match processor_apply_gan_correction_filter gan image_data with
    | some r =>
      if r = "" then processor_apply_traditional_correction_filter pipeline decodeBody image_data
      else r
    | none => processor_apply_traditional_correction_filter pipeline decodeBody image_data
  else processor_apply_traditional_correction_filter pipeline decodeBody image_data

/-- `CVDAnalyzer.apply_traditional_correction_filter`: the try-block (modelled
by `body`, which has the `generate_correction_filter` method available on this
class) with the blanket `except` returning the original `image_data`. -/
def analyzer_apply_traditional_correction_filter
    (body : String → PyResult String) (image_data : String) : String :=
  match body image_data with
  | .ok s => s
  | .exn _ => image_data

/-- `CVDAnalyzer.apply_hybrid_correction_filter`: evaluating
`use_gan and self.gan_generator` looks up the `gan_generator` attribute, which
`CVDAnalyzer` instances do not have; when `use_gan` is true this lookup raises
`AttributeError` outside any try-block.  `ganBranch` stands for the
(unreachable) behaviour that would follow if the attribute existed. -/
def analyzer_apply_hybrid_correction_filter
    (ganBranch : PyResult String) (body : String → PyResult String)
    (use_gan : Bool) (image_data : String) : PyResult String :=
  if use_gan then
    if analyzer_attribute_names.contains "gan_generator" then ganBranch
    else PyResult.exn "AttributeError: gan_generator"
  else PyResult.ok (analyzer_apply_traditional_correction_filter body image_data)

/-- A concrete answered battery: both protanopia identical questions answered
wrongly, all three specific diagnostic questions answered correctly. -/
def qs6 : List Question :=
  [{ user_response := some false, correct_answer := true, filter_type := "protanopia",
     difficulty_level := "identical", question_type := "identical" },
   { user_response := some false, correct_answer := true, filter_type := "protanopia",
     difficulty_level := "identical", question_type := "identical" },
   { user_response := some false, correct_answer := false, filter_type := "protanopia",
     difficulty_level := "cvd_confusion", question_type := "protanopia_specific" },
   { user_response := some false, correct_answer := false, filter_type := "deuteranopia",
     difficulty_level := "cvd_confusion", question_type := "deuteranopia_specific" },
   { user_response := some false, correct_answer := false, filter_type := "tritanopia",
     difficulty_level := "cvd_confusion", question_type := "tritanopia_specific" }]

/-- A concrete answered battery with a single protanopia-specific question,
answered incorrectly. -/
def qsSpecMissed : List Question :=
  [{ user_response := some true, correct_answer := false, filter_type := "protanopia",
     difficulty_level := "cvd_confusion", question_type := "protanopia_specific" }]

theorem pymin_eq_min (a b : ℚ) : pymin a b = min a b := (min_def a b).symm

theorem pymax_eq_max (a b : ℚ) : pymax a b = max a b := by
  unfold pymax
  rcases le_or_lt b a with h | h
  · rw [if_neg (not_lt.mpr h), max_eq_left h]
  · rw [if_pos h, max_eq_right h.le]

/-- Claim C1 (counterexample): at caller severity 1/4 on the pure-red pixel the
code does not produce `(1-s)*original + s*transformed` with the caller-supplied
weight s = 1/4 — the code first doubles the severity, so it interpolates with
weight 1/2 instead. -/
theorem cvd_filter_not_caller_weight :
    apply_cvd_filter .protanopia (1/4) [⟨1, 0, 0⟩] ≠
      apply_cvd_filter_specWeight .protanopia (1/4) [⟨1, 0, 0⟩] := by
  norm_num [apply_cvd_filter, apply_cvd_filter_specWeight, apply_cvd_filter_pixel,
    apply_cvd_filter_pixel_specWeight, pymin, cvd_matrix, protanopia_matrix,
    matVec, vdot, vadd, vscale, Vec3.mk.injEq]

/-- Claim C1 (amended): `apply_cvd_filter` interpolates per pixel with the
doubled severity `2s` (capped at 1): for s < 1/2 the result is
`(1-2s)*original + 2s*transformed`; for s ≥ 1/2 (in particular for all
severities ≥ 1.0) the full transform output is used directly. -/
theorem cvd_filter_doubled_weight (t : DeficiencyType) (s : ℚ) (img : List Vec3) :
    apply_cvd_filter t s img =
      img.map (fun p =>
        if s < 1/2 then
          vadd (vscale (1 - s * 2) p) (vscale (s * 2) (matVec (cvd_matrix t) p))
        else matVec (cvd_matrix t) p) := by
  unfold apply_cvd_filter
  refine List.map_congr_left (fun p _ => ?_)
  unfold apply_cvd_filter_pixel
  by_cases h : s < 1/2
  · have h2 : s * 2 < 1 := by linarith
    have hmin : pymin 1 (s * 2) = s * 2 := by
      rw [pymin_eq_min]; exact min_eq_right (le_of_lt h2)
    simp only [hmin, if_pos h2, if_pos h]
  · have h2 : (1 : ℚ) ≤ s * 2 := by linarith [not_lt.mp h]
    have hmin : pymin 1 (s * 2) = 1 := by
      rw [pymin_eq_min]; exact min_eq_left h2
    simp only [hmin, if_neg h]
    simp

theorem roundHalfEven_ge (q : ℚ) : q - 1/2 ≤ (roundHalfEven q : ℚ) := by
  have h1 : (⌊q⌋ : ℚ) ≤ q := Int.floor_le q
  have h2 : q < ⌊q⌋ + 1 := Int.lt_floor_add_one q
  unfold roundHalfEven
  split_ifs <;> push_cast <;> linarith

theorem roundHalfEven_le (q : ℚ) : (roundHalfEven q : ℚ) ≤ q + 1/2 := by
  have h1 : (⌊q⌋ : ℚ) ≤ q := Int.floor_le q
  have h2 : q < ⌊q⌋ + 1 := Int.lt_floor_add_one q
  unfold roundHalfEven
  split_ifs <;> push_cast <;> linarith

theorem round2_nonneg (q : ℚ) (h : 0 ≤ q) : 0 ≤ round2 q := by
  unfold round2
  have hge := roundHalfEven_ge (q * 100)
  have hq : (-1 : ℚ) < (roundHalfEven (q * 100) : ℚ) := by linarith
  have hz : (0 : ℤ) ≤ roundHalfEven (q * 100) := by
    have : (-1 : ℤ) < roundHalfEven (q * 100) := by exact_mod_cast hq
    omega
  have : (0 : ℚ) ≤ (roundHalfEven (q * 100) : ℚ) := by exact_mod_cast hz
  positivity

theorem round2_le_of_le (q : ℚ) (n : ℤ) (h : q ≤ (n : ℚ) / 100) : round2 q ≤ (n : ℚ) / 100 := by
  unfold round2
  have hle := roundHalfEven_le (q * 100)
  have hq : (roundHalfEven (q * 100) : ℚ) < (n : ℚ) + 1 := by
    have : q * 100 ≤ (n : ℚ) := by
      have := mul_le_mul_of_nonneg_right h (by norm_num : (0:ℚ) ≤ 100)
      calc q * 100 ≤ (n : ℚ) / 100 * 100 := this
        _ = (n : ℚ) := by ring
    linarith
  have hz : roundHalfEven (q * 100) ≤ n := by
    have : roundHalfEven (q * 100) < n + 1 := by exact_mod_cast hq
    omega
  have hc : (roundHalfEven (q * 100) : ℚ) ≤ (n : ℚ) := by exact_mod_cast hz
  linarith

theorem intensity_weight_pos (difficulty_level : String) : 0 < intensity_weight difficulty_level := by
  unfold intensity_weight
  split_ifs <;> norm_num

theorem scoreInv_step (tname : String) (sd : ScoreData) (q : Question) (h : ScoreInv sd) :
    ScoreInv (stepScore tname sd q) := by
  obtain ⟨he, het, hs⟩ := h
  have hw := intensity_weight_pos q.difficulty_level
  unfold stepScore
  rcases q.user_response with _ | resp
  · exact ⟨he, het, hs⟩
  · dsimp only
    split_ifs <;>
      first
      | exact ⟨he, het, hs⟩
      | (refine ⟨?_, ?_, fun hp => ?_⟩ <;> dsimp only <;> linarith)

theorem scoreInv_foldl (tname : String) (questions : List Question) (sd : ScoreData)
    (h : ScoreInv sd) : ScoreInv (questions.foldl (stepScore tname) sd) := by
  induction questions generalizing sd with
  | nil => exact h
  | cons q rest ih => exact ih _ (scoreInv_step tname sd q h)

theorem scoreInv_scoreFor (tname : String) (questions : List Question) :
    ScoreInv (scoreFor tname questions) :=
  scoreInv_foldl tname questions ⟨0, 0, 0, 0⟩ ⟨le_refl 0, le_refl 0, by intro h; cases h⟩

theorem confusion_step_mono (tname : String) (sd : ScoreData) (q : Question) :
    sd.confusion_errors ≤ (stepScore tname sd q).confusion_errors := by
  unfold stepScore
  rcases q.user_response with _ | resp
  · exact le_refl _
  · dsimp only
    split_ifs <;> (try dsimp only) <;> omega

theorem confusion_foldl_mono (tname : String) (qs : List Question) (sd : ScoreData) :
    sd.confusion_errors ≤ (qs.foldl (stepScore tname) sd).confusion_errors := by
  induction qs generalizing sd with
  | nil => exact le_refl _
  | cons q rest ih => exact le_trans (confusion_step_mono tname sd q) (ih _)

theorem confusion_step_pos (tname : String) (sd : ScoreData) (q : Question)
    (h : 0 < (stepScore tname sd q).confusion_errors) :
    0 < sd.confusion_errors ∨
      (q.question_type == tname ++ "_specific" && answeredWrong q) = true := by
  obtain ⟨ur, ca, ft, dl, qt⟩ := q
  rcases ur with _ | resp
  · exact Or.inl h
  · simp only [stepScore] at h
    split_ifs at h with h1 h2 h3 h4 h5 h6 <;>
      (try dsimp only at h) <;>
      first
      | exact Or.inl (by omega)
      | (refine Or.inr ?_
         simp_all [answeredWrong])

theorem confusion_step_of_pred (tname : String) (sd : ScoreData) (q : Question)
    (hwf : SpecificWellFormed tname q)
    (hpred : (q.question_type == tname ++ "_specific" && answeredWrong q) = true) :
    0 < (stepScore tname sd q).confusion_errors := by
  obtain ⟨ur, ca, ft, dl, qt⟩ := q
  rw [Bool.and_eq_true, beq_iff_eq] at hpred
  obtain ⟨hqt, hwr⟩ := hpred
  obtain ⟨hft, hdl⟩ := hwf hqt
  rcases ur with _ | resp
  · simp [answeredWrong] at hwr
  · simp only [answeredWrong, bne_iff_ne] at hwr
    simp only [stepScore]
    dsimp only at hft hdl hqt ⊢
    rw [if_pos hft, if_pos hwr, if_pos ⟨hdl, hqt⟩]
    dsimp only
    omega

theorem confusion_pos_foldl (tname : String) (qs : List Question) (sd : ScoreData)
    (h : 0 < (qs.foldl (stepScore tname) sd).confusion_errors) :
    0 < sd.confusion_errors ∨ specificAnsweredWrong tname qs = true := by
  induction qs generalizing sd with
  | nil => exact Or.inl h
  | cons q rest ih =>
    rcases ih (stepScore tname sd q) h with hstep | hrest
    · rcases confusion_step_pos tname sd q hstep with hsd | hpred
      · exact Or.inl hsd
      · refine Or.inr ?_
        simp [specificAnsweredWrong, List.any_cons, hpred]
    · refine Or.inr ?_
      simp only [specificAnsweredWrong] at hrest ⊢
      simp [List.any_cons, hrest]

theorem foldl_confusion_of_wrong (tname : String) (qs : List Question) (sd : ScoreData)
    (hwf : ∀ q ∈ qs, SpecificWellFormed tname q)
    (h : specificAnsweredWrong tname qs = true) :
    0 < (qs.foldl (stepScore tname) sd).confusion_errors := by
  induction qs generalizing sd with
  | nil => simp [specificAnsweredWrong] at h
  | cons q rest ih =>
    simp only [specificAnsweredWrong, List.any_cons, Bool.or_eq_true] at h
    rcases h with hq | hrest
    · have hstep := confusion_step_of_pred tname sd q (hwf q (List.mem_cons_self q rest)) hq
      calc 0 < (stepScore tname sd q).confusion_errors := hstep
        _ ≤ (rest.foldl (stepScore tname) (stepScore tname sd q)).confusion_errors :=
            confusion_foldl_mono tname rest _
    · exact ih (stepScore tname sd q) (fun p hp => hwf p (List.mem_cons_of_mem q hp)) hrest

theorem preClamp_nonneg (sd : ScoreData) (h : ScoreInv sd) : 0 ≤ preClampSeverity sd := by
  obtain ⟨he, het, _⟩ := h
  unfold preClampSeverity
  have hbase : (0:ℚ) ≤
      (if 0 < sd.specific_questions then (if 0 < sd.confusion_errors then (3:ℚ)/20 else 0) else 0) := by
    split_ifs <;> norm_num
  have hrate : (0:ℚ) ≤
      (if 0 < sd.total_weight then sd.error_weight / sd.total_weight * (1/20) else 0) := by
    split_ifs with ht
    · exact mul_nonneg (div_nonneg he ht.le) (by norm_num)
    · exact le_refl 0
  linarith

theorem preClamp_le (sd : ScoreData) (h : ScoreInv sd) : preClampSeverity sd ≤ 1/5 := by
  obtain ⟨he, het, _⟩ := h
  unfold preClampSeverity
  have hbase :
      (if 0 < sd.specific_questions then (if 0 < sd.confusion_errors then (3:ℚ)/20 else 0) else 0)
        ≤ 3/20 := by
    split_ifs <;> norm_num
  have hrate :
      (if 0 < sd.total_weight then sd.error_weight / sd.total_weight * (1/20) else 0) ≤ 1/20 := by
    split_ifs with ht
    · have hdiv : sd.error_weight / sd.total_weight ≤ 1 := (div_le_one ht).mpr het
      nlinarith
    · norm_num
  linarith

theorem rawSeverity_nonneg (sd : ScoreData) (h : ScoreInv sd) : 0 ≤ rawSeverity sd := by
  unfold rawSeverity
  rw [pymin_eq_min]
  exact le_min (by norm_num) (preClamp_nonneg sd h)

theorem rawSeverity_le (sd : ScoreData) : rawSeverity sd ≤ 1/5 := by
  unfold rawSeverity
  rw [pymin_eq_min]
  exact min_le_left _ _

theorem severityFor_nonneg (tname : String) (qs : List Question) : 0 ≤ severityFor tname qs :=
  round2_nonneg _ (rawSeverity_nonneg _ (scoreInv_scoreFor tname qs))

theorem severityFor_le (tname : String) (qs : List Question) : severityFor tname qs ≤ 1/5 := by
  have hraw : rawSeverity (scoreFor tname qs) ≤ ((20 : ℤ) : ℚ) / 100 := by
    have := rawSeverity_le (scoreFor tname qs)
    push_cast
    linarith
  have h := round2_le_of_le _ 20 hraw
  unfold severityFor
  push_cast at h
  linarith

/-- Claim C5: for every sequence of questions with arbitrary response patterns,
every per-type severity returned by `analyze_test_results` lies in [0, 0.2]. -/
theorem severity_always_in_range (qs : List Question) :
    (0 ≤ (analyze_test_results qs).protanopia ∧ (analyze_test_results qs).protanopia ≤ 1/5) ∧
    (0 ≤ (analyze_test_results qs).deuteranopia ∧ (analyze_test_results qs).deuteranopia ≤ 1/5) ∧
    (0 ≤ (analyze_test_results qs).tritanopia ∧ (analyze_test_results qs).tritanopia ≤ 1/5) :=
  ⟨⟨severityFor_nonneg _ _, severityFor_le _ _⟩,
   ⟨severityFor_nonneg _ _, severityFor_le _ _⟩,
   ⟨severityFor_nonneg _ _, severityFor_le _ _⟩⟩

/-- Claim C9 (implicit): the pre-clamp per-type severity is already at most
0.2, so the `min(0.2, ...)` cap never binds; the maximum severity never
reaches 0.35, and the overall label is always "none" or "mild" —
"moderate" and "severe" are unreachable. -/
theorem severity_cap_never_binds (qs : List Question) :
    (∀ t : DeficiencyType,
      preClampSeverity (scoreFor (deficiencyName t) qs) ≤ 1/5 ∧
      rawSeverity (scoreFor (deficiencyName t) qs) =
        preClampSeverity (scoreFor (deficiencyName t) qs)) ∧
    pymax (pymax (severityFor "protanopia" qs) (severityFor "deuteranopia" qs))
      (severityFor "tritanopia" qs) < 7/20 ∧
    ((analyze_test_results qs).overall_severity = "none" ∨
      (analyze_test_results qs).overall_severity = "mild") := by
  have hmax : pymax (pymax (severityFor "protanopia" qs) (severityFor "deuteranopia" qs))
      (severityFor "tritanopia" qs) < 7/20 := by
    rw [pymax_eq_max, pymax_eq_max]
    have h1 := severityFor_le "protanopia" qs
    have h2 := severityFor_le "deuteranopia" qs
    have h3 := severityFor_le "tritanopia" qs
    exact max_lt (max_lt (by linarith) (by linarith)) (by linarith)
  refine ⟨fun t => ?_, hmax, ?_⟩
  · have hpre := preClamp_le (scoreFor (deficiencyName t) qs) (scoreInv_scoreFor _ _)
    refine ⟨hpre, ?_⟩
    unfold rawSeverity
    rw [pymin_eq_min]
    exact min_eq_right hpre
  · show (overallSeverityLabel _ = "none") ∨ (overallSeverityLabel _ = "mild")
    unfold overallSeverityLabel
    by_cases hm : pymax (pymax (severityFor "protanopia" qs) (severityFor "deuteranopia" qs))
        (severityFor "tritanopia" qs) < 3/20
    · left
      rw [if_pos hm]
    · right
      rw [if_neg hm, if_pos hmax]

theorem confusion_pos_iff (tname : String) (qs : List Question)
    (hwf : ∀ q ∈ qs, SpecificWellFormed tname q) :
    0 < (scoreFor tname qs).confusion_errors ↔ specificAnsweredWrong tname qs = true := by
  constructor
  · intro h
    rcases confusion_pos_foldl tname qs ⟨0, 0, 0, 0⟩ h with h0 | hs
    · exact absurd h0 (by simp)
    · exact hs
  · intro h
    exact foldl_confusion_of_wrong tname qs ⟨0, 0, 0, 0⟩ hwf h

/-- Claim C2: for every battery and deficiency type with at least one answered
type-specific diagnostic question (well-formed as the generator produces them),
the returned severity equals the base (0.15 when the specific question was
missed, 0 otherwise) plus `error_weight / total_weight * 0.05`, clamped to
[0, 0.2] and rounded to two decimal places. -/
theorem severity_formula_with_specific_question (qs : List Question) (t : DeficiencyType)
    (hspec : 0 < (scoreFor (deficiencyName t) qs).specific_questions)
    (hwf : ∀ q ∈ qs, SpecificWellFormed (deficiencyName t) q) :
    severityFor (deficiencyName t) qs =
      round2 (max 0 (min (1/5)
        ((if specificAnsweredWrong (deficiencyName t) qs then (3:ℚ)/20 else 0) +
          (scoreFor (deficiencyName t) qs).error_weight /
            (scoreFor (deficiencyName t) qs).total_weight * (1/20)))) := by
  obtain ⟨he, het, hst⟩ := scoreInv_scoreFor (deficiencyName t) qs
  have htot : 0 < (scoreFor (deficiencyName t) qs).total_weight := hst hspec
  have hiff := confusion_pos_iff (deficiencyName t) qs hwf
  unfold severityFor rawSeverity preClampSeverity
  rw [pymin_eq_min, if_pos hspec, if_pos htot]
  have hbase : (if 0 < (scoreFor (deficiencyName t) qs).confusion_errors then (3:ℚ)/20 else 0) =
      (if specificAnsweredWrong (deficiencyName t) qs then (3:ℚ)/20 else 0) := by
    by_cases hc : specificAnsweredWrong (deficiencyName t) qs = true
    · rw [if_pos (hiff.mpr hc), if_pos hc]
    · rw [if_neg (fun hcc => hc (hiff.mp hcc)), if_neg hc]
  rw [hbase]
  have hsum : 0 ≤ (if specificAnsweredWrong (deficiencyName t) qs then (3:ℚ)/20 else 0) +
      (scoreFor (deficiencyName t) qs).error_weight /
        (scoreFor (deficiencyName t) qs).total_weight * (1/20) := by
    have h1 : (0:ℚ) ≤ (if specificAnsweredWrong (deficiencyName t) qs then (3:ℚ)/20 else 0) := by
      split_ifs <;> norm_num
    have h2 : (0:ℚ) ≤ (scoreFor (deficiencyName t) qs).error_weight /
        (scoreFor (deficiencyName t) qs).total_weight * (1/20) :=
      mul_nonneg (div_nonneg he htot.le) (by norm_num)
    linarith
  rw [max_eq_right (le_min (by norm_num) hsum)]

/-- Witness for claim C2 at a concrete one-question battery whose
protanopia-specific question was answered incorrectly. -/
theorem severity_formula_with_specific_question_witness :
    (0 < (scoreFor (deficiencyName DeficiencyType.protanopia) qsSpecMissed).specific_questions ∧
      ∀ q ∈ qsSpecMissed, SpecificWellFormed (deficiencyName DeficiencyType.protanopia) q) ∧
    severityFor (deficiencyName DeficiencyType.protanopia) qsSpecMissed =
      round2 (max 0 (min (1/5)
        ((if specificAnsweredWrong (deficiencyName DeficiencyType.protanopia) qsSpecMissed
          then (3:ℚ)/20 else 0) +
          (scoreFor (deficiencyName DeficiencyType.protanopia) qsSpecMissed).error_weight /
            (scoreFor (deficiencyName DeficiencyType.protanopia) qsSpecMissed).total_weight *
              (1/20)))) :=
  ⟨⟨by decide, by decide⟩,
   severity_formula_with_specific_question qsSpecMissed DeficiencyType.protanopia
     (by decide) (by decide)⟩

theorem severity_le_of_no_specific_error (tname : String) (qs : List Question)
    (h : specificAnsweredWrong tname qs = false) :
    severityFor tname qs ≤ 1/20 := by
  have hconf : (scoreFor tname qs).confusion_errors = 0 := by
    by_contra hne
    rcases confusion_pos_foldl tname qs ⟨0, 0, 0, 0⟩ (Nat.pos_of_ne_zero hne) with h0 | hs
    · exact absurd h0 (by simp)
    · rw [hs] at h
      cases h
  obtain ⟨he, het, _⟩ := scoreInv_scoreFor tname qs
  have hpre : preClampSeverity (scoreFor tname qs) ≤ 1/20 := by
    unfold preClampSeverity
    rw [hconf]
    simp only [lt_self_iff_false, if_false, ite_self, zero_add]
    split_ifs with ht
    · have hdiv : (scoreFor tname qs).error_weight / (scoreFor tname qs).total_weight ≤ 1 :=
        (div_le_one ht).mpr het
      nlinarith
    · norm_num
  have hraw : rawSeverity (scoreFor tname qs) ≤ ((5 : ℤ) : ℚ) / 100 := by
    unfold rawSeverity
    rw [pymin_eq_min]
    have := min_le_right (1/5 : ℚ) (preClampSeverity (scoreFor tname qs))
    push_cast
    linarith
  have hr := round2_le_of_le _ 5 hraw
  unfold severityFor
  push_cast at hr
  linarith

/-- Claim C6 (amended): when every type-specific diagnostic question is
answered correctly, `no_blindness` is reported (1) — but the per-type
severities are only guaranteed to be at most 0.05, the identical-question
error contribution; they are not 0.0 regardless of the identical answers. -/
theorem all_specific_correct_no_blindness (qs : List Question)
    (hp : specificAnsweredWrong "protanopia" qs = false)
    (hd : specificAnsweredWrong "deuteranopia" qs = false)
    (ht : specificAnsweredWrong "tritanopia" qs = false) :
    (analyze_test_results qs).no_blindness = 1 ∧
    (analyze_test_results qs).protanopia ≤ 1/20 ∧
    (analyze_test_results qs).deuteranopia ≤ 1/20 ∧
    (analyze_test_results qs).tritanopia ≤ 1/20 := by
  have h1 := severity_le_of_no_specific_error "protanopia" qs hp
  have h2 := severity_le_of_no_specific_error "deuteranopia" qs hd
  have h3 := severity_le_of_no_specific_error "tritanopia" qs ht
  refine ⟨?_, h1, h2, h3⟩
  show (if pymax (pymax (severityFor "protanopia" qs) (severityFor "deuteranopia" qs))
      (severityFor "tritanopia" qs) < 1/10 then 1 else 0) = 1
  rw [if_pos]
  rw [pymax_eq_max, pymax_eq_max]
  exact max_lt (max_lt (by linarith) (by linarith)) (by linarith)

/-- Claim C6 (counterexample): in `qs6` every specific diagnostic question is
answered correctly, yet the protanopia severity is 0.01, not 0.0 — the two
missed identical protanopia questions contribute through the error rate. -/
theorem all_specific_correct_severity_nonzero :
    specificAnsweredWrong "protanopia" qs6 = false ∧
    specificAnsweredWrong "deuteranopia" qs6 = false ∧
    specificAnsweredWrong "tritanopia" qs6 = false ∧
    0 < (scoreFor "protanopia" qs6).specific_questions ∧
    0 < (scoreFor "deuteranopia" qs6).specific_questions ∧
    0 < (scoreFor "tritanopia" qs6).specific_questions ∧
    (analyze_test_results qs6).protanopia = 1/100 ∧
    (analyze_test_results qs6).protanopia ≠ 0 := by
  refine ⟨by decide, by decide, by decide, by decide, by decide, by decide, ?_, ?_⟩
  · show severityFor "protanopia" qs6 = 1/100
    have hsf : scoreFor "protanopia" qs6 = ⟨6/5, 1/5, 0, 1⟩ := by
      have happ : ("protanopia" ++ "_specific" : String) = "protanopia_specific" := rfl
      simp only [scoreFor, qs6, List.foldl_cons, List.foldl_nil, stepScore, intensity_weight,
        happ]
      simp
      all_goals norm_num
    unfold severityFor rawSeverity preClampSeverity
    rw [hsf]
    norm_num [pymin, round2, roundHalfEven]
  · show severityFor "protanopia" qs6 ≠ 0
    have hsf : scoreFor "protanopia" qs6 = ⟨6/5, 1/5, 0, 1⟩ := by
      have happ : ("protanopia" ++ "_specific" : String) = "protanopia_specific" := rfl
      simp only [scoreFor, qs6, List.foldl_cons, List.foldl_nil, stepScore, intensity_weight,
        happ]
      simp
      all_goals norm_num
    unfold severityFor rawSeverity preClampSeverity
    rw [hsf]
    norm_num [pymin, round2, roundHalfEven]

/-- Witness for the amended claim C6 at the concrete battery `qs6`. -/
theorem all_specific_correct_no_blindness_witness :
    (specificAnsweredWrong "protanopia" qs6 = false ∧
      specificAnsweredWrong "deuteranopia" qs6 = false ∧
      specificAnsweredWrong "tritanopia" qs6 = false) ∧
    ((analyze_test_results qs6).no_blindness = 1 ∧
      (analyze_test_results qs6).protanopia ≤ 1/20 ∧
      (analyze_test_results qs6).deuteranopia ≤ 1/20 ∧
      (analyze_test_results qs6).tritanopia ≤ 1/20) :=
  ⟨⟨by decide, by decide, by decide⟩,
   all_specific_correct_no_blindness qs6 (by decide) (by decide) (by decide)⟩

/-- Claim C7: a generated 10-question battery always consists of exactly 7
"identical" questions with correct_answer true and, for each deficiency type,
exactly one "<type>_specific" question of cvd_confusion difficulty with
correct_answer false and that type as its filter type — for any random image
and context-type choices (abstracted by `pick`). -/
theorem battery_composition_fixed (pick : ℕ → String) :
    (generate_test_questions pick 10).countP
        (fun q => q.question_type == "identical") = 7 ∧
    (generate_test_questions pick 10).countP
        (fun q => q.question_type == "identical" && q.correct_answer) = 7 ∧
    (generate_test_questions pick 10).countP
        (fun q => q.question_type == "protanopia_specific" &&
          (q.difficulty_level == "cvd_confusion" &&
            (!q.correct_answer && q.filter_type == "protanopia"))) = 1 ∧
    (generate_test_questions pick 10).countP
        (fun q => q.question_type == "deuteranopia_specific" &&
          (q.difficulty_level == "cvd_confusion" &&
            (!q.correct_answer && q.filter_type == "deuteranopia"))) = 1 ∧
    (generate_test_questions pick 10).countP
        (fun q => q.question_type == "tritanopia_specific" &&
          (q.difficulty_level == "cvd_confusion" &&
            (!q.correct_answer && q.filter_type == "tritanopia"))) = 1 :=
  ⟨rfl, rfl, rfl, rfl, rfl⟩

/-- Claim C3 (counterexample): at severity vector (0.2, 0, 0) the derivation
with gain 0.8 (`generate_traditional_filter_params`) returns brightness
1.02 ≠ 1.0, while the derivation with unity adjustments
(`generate_correction_filter`) returns protanopia correction 0.08 ≠ 0.16:
no derivation in the code has both gain 0.8 and unity global adjustments. -/
theorem traditional_params_claim_contradiction :
    (generate_traditional_filter_params ⟨1/5, 0, 0⟩).protanopia_correction = 4/25 ∧
    (generate_traditional_filter_params ⟨1/5, 0, 0⟩).brightness_adjustment ≠ 1 ∧
    (generate_correction_filter ⟨1/5, 0, 0⟩).brightness_adjustment = 1 ∧
    (generate_correction_filter ⟨1/5, 0, 0⟩).protanopia_correction ≠ 4/25 := by
  refine ⟨by norm_num [generate_traditional_filter_params], ?_,
    by norm_num [generate_correction_filter], by norm_num [generate_correction_filter]⟩
  norm_num [generate_traditional_filter_params, pymax]

/-- Claim C3 (amended): `generate_traditional_filter_params` uses gain 0.8 but
global adjustments `1 + max_severity * {0.1, 0.15, 0.2}` (unity only at zero
severity), while `generate_correction_filter` — the derivation used by the
correction pipeline — uses gain 0.4 with brightness, contrast and saturation
all exactly 1.0; e.g. protanopia severity 0.2 yields corrections 0.16 and 0.08
respectively. -/
theorem traditional_params_values (s : SeverityScores) :
    (generate_traditional_filter_params s).protanopia_correction = s.protanopia * (8/10) ∧
    (generate_traditional_filter_params s).deuteranopia_correction = s.deuteranopia * (8/10) ∧
    (generate_traditional_filter_params s).tritanopia_correction = s.tritanopia * (8/10) ∧
    (generate_traditional_filter_params s).brightness_adjustment =
      1 + pymax (pymax s.protanopia s.deuteranopia) s.tritanopia * (1/10) ∧
    (generate_traditional_filter_params s).contrast_adjustment =
      1 + pymax (pymax s.protanopia s.deuteranopia) s.tritanopia * (15/100) ∧
    (generate_traditional_filter_params s).saturation_adjustment =
      1 + pymax (pymax s.protanopia s.deuteranopia) s.tritanopia * (2/10) ∧
    (generate_correction_filter s).protanopia_correction = s.protanopia * (4/10) ∧
    (generate_correction_filter s).deuteranopia_correction = s.deuteranopia * (4/10) ∧
    (generate_correction_filter s).tritanopia_correction = s.tritanopia * (4/10) ∧
    (generate_correction_filter s).brightness_adjustment = 1 ∧
    (generate_correction_filter s).contrast_adjustment = 1 ∧
    (generate_correction_filter s).saturation_adjustment = 1 ∧
    (generate_traditional_filter_params ⟨1/5, 0, 0⟩).protanopia_correction = 4/25 ∧
    (generate_correction_filter ⟨1/5, 0, 0⟩).protanopia_correction = 2/25 :=
  ⟨rfl, rfl, rfl, rfl, rfl, rfl, rfl, rfl, rfl, rfl, rfl, rfl,
   by norm_num [generate_traditional_filter_params],
   by norm_num [generate_correction_filter]⟩

/-- Claim C8 (counterexample): with severities (0.05, 0, 0) some severity is
strictly positive, yet `generate_filter_parameters` sets its has_cvd entry to
0, because it tests `max(...) > 0.1` rather than positivity. -/
theorem filter_parameters_has_cvd_counterexample :
    (0 < (1:ℚ)/20 ∨ 0 < (0:ℚ) ∨ 0 < (0:ℚ)) ∧
    generate_filter_parameters_has_cvd (1/20) 0 0 = 0 ∧
    (create_condition_vector (1/20) 0 0).has_cvd = 1 := by
  refine ⟨Or.inl (by norm_num), ?_, ?_⟩
  · norm_num [generate_filter_parameters_has_cvd, pymax]
  · norm_num [create_condition_vector]

/-- Claim C8 (amended): `create_condition_vector` sets has_cvd = 1 iff some
severity is strictly positive (0 otherwise), but the condition vector built in
`generate_filter_parameters` sets has_cvd = 1 iff the maximum severity exceeds
the 0.1 threshold. -/
theorem has_cvd_conditions (p d t : ℚ) :
    ((create_condition_vector p d t).has_cvd = 1 ↔ (0 < p ∨ 0 < d ∨ 0 < t)) ∧
    ((create_condition_vector p d t).has_cvd = 0 ↔ ¬(0 < p ∨ 0 < d ∨ 0 < t)) ∧
    (generate_filter_parameters_has_cvd p d t = 1 ↔ (1/10 < p ∨ 1/10 < d ∨ 1/10 < t)) := by
  refine ⟨?_, ?_, ?_⟩
  · show (if 0 < p ∨ 0 < d ∨ 0 < t then (1:ℚ) else 0) = 1 ↔ _
    split_ifs with h
    · exact iff_of_true rfl h
    · exact iff_of_false (by norm_num) h
  · show (if 0 < p ∨ 0 < d ∨ 0 < t then (1:ℚ) else 0) = 0 ↔ _
    split_ifs with h
    · exact iff_of_false (by norm_num) (not_not_intro h)
    · exact iff_of_true rfl h
  · show (if 1/10 < pymax (pymax p d) t then (1:ℚ) else 0) = 1 ↔ _
    rw [pymax_eq_max, pymax_eq_max]
    split_ifs with h
    · simp only [lt_max_iff] at h
      exact iff_of_true rfl (by tauto)
    · simp only [lt_max_iff] at h
      exact iff_of_false (by norm_num) (by tauto)

theorem processor_traditional_id (pipeline : String → String)
    (decodeBody : String → PyResult Unit) (image_data : String) :
    processor_apply_traditional_correction_filter pipeline decodeBody image_data = image_data := by
  unfold processor_apply_traditional_correction_filter
  have hattr : processor_attribute_names.contains "generate_correction_filter" = false := by
    decide
  cases decodeBody image_data with
  | exn e => rfl
  | ok u =>
    have hne : ¬ (processor_attribute_names.contains "generate_correction_filter" = true) := by
      rw [hattr]
      simp
    rw [if_neg hne]

/-- Claim C10: `ColorVisionProcessor.apply_traditional_correction_filter`
always returns its input unchanged: `generate_correction_filter` is an
attribute of `CVDAnalyzer` but not of `ColorVisionProcessor`, so the body
always raises `AttributeError`, the blanket handler runs, and the original
image data string is returned — so the traditional fallback reached through
`ColorVisionProcessor.apply_hybrid_correction_filter` performs no correction. -/
theorem traditional_correction_returns_input (pipeline : String → String)
    (decodeBody : String → PyResult Unit) (use_gan : Bool) (image_data : String) :
    processor_attribute_names.contains "generate_correction_filter" = false ∧
    analyzer_attribute_names.contains "generate_correction_filter" = true ∧
    processor_apply_traditional_correction_filter pipeline decodeBody image_data = image_data ∧
    processor_apply_hybrid_correction_filter none pipeline decodeBody use_gan image_data =
      image_data := by
  refine ⟨by decide, by decide, processor_traditional_id pipeline decodeBody image_data, ?_⟩
  unfold processor_apply_hybrid_correction_filter
  simp only [Option.isSome_none, Bool.and_false, Bool.false_eq_true, if_false]
  exact processor_traditional_id pipeline decodeBody image_data

/-- Claim C4 (code-bug evaluation): requesting the model strategy on
`CVDAnalyzer.apply_hybrid_correction_filter` raises `AttributeError` — the
class has no `gan_generator` attribute — instead of falling back, for every
image input; the `ColorVisionProcessor` version does fall back to the
traditional filter result when the model strategy is absent or raises. -/
theorem hybrid_dispatch_analyzer_raises (ganBranch : PyResult String)
    (body : String → PyResult String) (pipeline : String → String)
    (decodeBody : String → PyResult Unit) (e image_data : String) :
    analyzer_apply_hybrid_correction_filter ganBranch body true image_data =
      PyResult.exn "AttributeError: gan_generator" ∧
    processor_apply_hybrid_correction_filter (some (fun _ => PyResult.exn e)) pipeline
        decodeBody true image_data =
      processor_apply_traditional_correction_filter pipeline decodeBody image_data ∧
    processor_apply_hybrid_correction_filter none pipeline decodeBody true image_data =
      processor_apply_traditional_correction_filter pipeline decodeBody image_data := by
  refine ⟨?_, ?_, ?_⟩
  · unfold analyzer_apply_hybrid_correction_filter
    have hattr : analyzer_attribute_names.contains "gan_generator" = false := by decide
    have hne : ¬ (analyzer_attribute_names.contains "gan_generator" = true) := by
      rw [hattr]
      simp
    rw [if_pos rfl, if_neg hne]
  · unfold processor_apply_hybrid_correction_filter processor_apply_gan_correction_filter
    simp
  · unfold processor_apply_hybrid_correction_filter
    simp
